import Mathlib

/-!
Shallow embedding of `benchmark.py` from the `git-ai-cli` benchmark tool,
together with theorems settling the specification claims about it.

Modelling conventions:
* Python strings are Lean `String`s (both are sequences of unicode code
  points; Python `len` is `String.length`).
* Python `float` arithmetic on durations and report percentages is modelled
  exactly in `ℚ`; the constant `1.3` is the exact rational `13/10`.
* Python `int(x)` truncation on a non-negative product `n * 1.3` is
  modelled as natural division `(n * 13) / 10`.
* External effects (spawning a process, reading the clock, probing the
  filesystem) are modelled as oracle functions passed explicitly.
* `print` calls are not part of the state and are omitted, except the fatal
  error message of the main entry, which the claims mention.
-/

namespace Benchmark

/-- The single-quote character `'` (used inside several command strings). -/
def sq : String := String.singleton (Char.ofNat 39)

/-- The whitespace characters recognised by Python `str.split()` /
`str.strip()` (ASCII fragment: space, tab, newline, carriage return,
vertical tab, form feed). -/
def pyIsSpace (c : Char) : Bool :=
  c = ' ' || c = '\t' || c = '\n' || c = '\r' || c = Char.ofNat 11 || c = Char.ofNat 12

/-- Helper for `pyWords`: accumulates the current word (reversed) while
scanning the character list, exactly the semantics of Python `str.split()`
with no separator argument (maximal runs of non-whitespace). -/
def pyWordsAux : List Char → List Char → List String
  | [], acc => if acc.isEmpty then [] else [String.mk acc.reverse]
  | c :: cs, acc =>
    if pyIsSpace c then
      if acc.isEmpty then pyWordsAux cs [] else String.mk acc.reverse :: pyWordsAux cs []
    else
      pyWordsAux cs (c :: acc)

/-- Python `text.split()`: split on whitespace runs, dropping empty words. -/
def pyWords (s : String) : List String := pyWordsAux s.data []

/-- Python `text.split('\n')`: split on each newline, keeping empty pieces;
the empty string yields `[""]`. -/
def splitLinesAux : List Char → List (List Char)
  | [] => [[]]
  | c :: cs =>
    if c = '\n' then [] :: splitLinesAux cs
    else
      match splitLinesAux cs with
      | [] => [[c]]
      | l :: ls => (c :: l) :: ls

/-- Python `text.split('\n')` on a `String`. -/
def pySplitLines (s : String) : List String := (splitLinesAux s.data).map String.mk

/-- Python `line.strip()`: drop leading and trailing whitespace. -/
def pyStrip (s : String) : String :=
  String.mk (((s.data.dropWhile pyIsSpace).reverse.dropWhile pyIsSpace).reverse)

/-- Python `s.endswith(suffix)`. -/
def pyEndsWith (s suffix : String) : Bool := suffix.data.isSuffixOf s.data

/-- `count_tokens` in its fallback form (tiktoken unavailable):
`if not text: return 0` then `int(len(text.split()) * 1.3)`.
The non-negative float product is truncated toward zero, i.e. the result is
`(word_count * 13) / 10` in exact arithmetic. -/
def count_tokens (text : String) : Nat :=
  if text = "" then 0 else (pyWords text).length * 13 / 10

/-- One recorded step: the dict appended by `BenchmarkResult.add_step`. -/
structure Step where
  tool : String
  command : String
  tokens : Nat
  duration : ℚ
  output_len : Nat
  deriving DecidableEq, Repr

/-- `BenchmarkResult` (the ResultTracker): name, ordered steps, running totals. -/
structure BenchmarkResult where
  name : String
  steps : List Step
  total_tokens : Nat
  total_time : ℚ
  deriving DecidableEq, Repr

/-- `BenchmarkResult.__init__(name)`: empty steps, zero totals. -/
def BenchmarkResult.init (name : String) : BenchmarkResult :=
  { name := name, steps := [], total_tokens := 0, total_time := 0 }

/-- `BenchmarkResult.add_step`: count tokens of the output, append the step
dict, and bump both running totals. -/
def add_step (r : BenchmarkResult) (tool command output : String) (duration : ℚ) :
    BenchmarkResult :=
  let tokens := count_tokens output
  { r with
    steps := r.steps ++ [{ tool := tool, command := command, tokens := tokens,
                           duration := duration, output_len := output.length }]
    total_tokens := r.total_tokens + tokens
    total_time := r.total_time + duration }

/-- Run a list of `add_step` calls (tool, command, output, duration) in order. -/
def runSteps (r : BenchmarkResult) : List (String × String × String × ℚ) → BenchmarkResult
  | [] => r
  | (tool, cmd, out, d) :: rest => runSteps (add_step r tool cmd out d) rest

/-- Outcome of one `subprocess.run(cmd, shell=True, capture_output=True,
text=True)` call: either completion with captured stdout and stderr, or an
exception `e` raised by the invocation itself (carrying `str(e)`).
The environment decides this per command, so it is an oracle. -/
inductive ProcResult where
  | ok (stdout stderr : String) : ProcResult
  | err (msg : String) : ProcResult
  deriving DecidableEq, Repr

/-- The captured output text of `Runner.runCmd`: stdout, with stderr
appended after the separator when non-empty; on an invocation exception,
`str(e)` (the `except` branch). -/
def capture : ProcResult → String
  | .ok out stde => if stde = "" then out else out ++ ("\n[STDERR]\n") ++ stde
  | .err msg => msg

/-- `Runner.run_cmd(cmd_str, result_tracker)` (named `runCmd` here since
`run_cmd` is a Lean keyword).
`proc` is the process oracle, `duration` the measured wall-clock time.
`tool_name = cmd_str.split()[0]` raises `IndexError` when the command has no
words; that uncaught exception is modelled as `none`. Otherwise the captured
output is returned together with the tracker extended by one step. -/
def runCmd (proc : String → ProcResult) (duration : ℚ) (cmd_str : String)
    (result_tracker : BenchmarkResult) : Option (String × BenchmarkResult) :=
  let output := capture (proc cmd_str)
  ((pyWords cmd_str).head?).map fun tool_name =>
    (output, add_step result_tracker tool_name cmd_str output duration)

/-- `"find . -name SysUserServiceImpl.java"` (baseline step 1). -/
def find_cmd : String := ("find . -name SysUserServiceImpl.java")

/-- `f"grep -n 'List<SysUser> selectUserList' {target_file}"` (baseline step 2). -/
def grep_def_cmd (target_file : String) : String :=
  ("grep -n ") ++ sq ++ ("List<SysUser> selectUserList") ++ sq ++ (" ") ++ target_file

/-- `f"cat {file}"` (baseline steps 3 and 5). -/
def cat_cmd (f : String) : String := ("cat ") ++ f

/-- `"grep -r 'selectUserList' . | head -n 20"` (baseline step 4). -/
def grep_callers_cmd : String :=
  ("grep -r ") ++ sq ++ ("selectUserList") ++ sq ++ (" . | head -n 20")

/-- The hardcoded fallback target path used when step 1 finds nothing. -/
def default_target : String :=
  ("ruoyi-system/src/main/java/com/ruoyi/system/service/impl/SysUserServiceImpl.java")

/-- The hardcoded caller file read in baseline step 5. -/
def caller_file : String :=
  ("ruoyi-admin/src/main/java/com/ruoyi/web/controller/system/SysUserController.java")

/-- The filename the baseline driver looks for in the `find` output. -/
def java_file : String := ("SysUserServiceImpl.java")

/-- Target-file selection in `run_baseline`:
`paths = [line for line in out1.split('\n') if line.strip().endswith('SysUserServiceImpl.java')]`,
then `paths[0].strip()` if non-empty, else the hardcoded default. -/
def baseline_target (out1 : String) : String :=
  match (pySplitLines out1).filter (fun line => pyEndsWith (pyStrip line) java_file) with
  | [] => default_target
  | p :: _ => pyStrip p

/-- `run_baseline(runner)`: the five-step baseline workflow. `dur n` is the
measured duration of the driver's n-th command. The `line_num` parsed from
step 2's output in the source is dead state (never read afterwards) and is
omitted. An uncaught exception in any `run_cmd` call propagates (`none`);
each `p` is the (output, tracker) pair returned by the previous call. -/
def run_baseline (proc : String → ProcResult) (dur : Nat → ℚ) : Option BenchmarkResult :=
  (runCmd proc (dur 0) find_cmd (BenchmarkResult.init ("Baseline (grep/cat)"))).bind fun p1 =>
    let target_file := baseline_target p1.1
    (runCmd proc (dur 1) (grep_def_cmd target_file) p1.2).bind fun p2 =>
      (runCmd proc (dur 2) (cat_cmd target_file) p2.2).bind fun p3 =>
        (runCmd proc (dur 3) grep_callers_cmd p3.2).bind fun p4 =>
          (runCmd proc (dur 4) (cat_cmd caller_file) p4.2).map fun p5 => p5.2

/-- The tracker produced by a complete `run_baseline` run, written out
step by step (proved equal to `run_baseline`'s result below). -/
def baseline_result (proc : String → ProcResult) (dur : Nat → ℚ) : BenchmarkResult :=
  let out1 := capture (proc find_cmd)
  let t := baseline_target out1
  let r1 := add_step (BenchmarkResult.init ("Baseline (grep/cat)")) ("find") find_cmd out1 (dur 0)
  let r2 := add_step r1 ("grep") (grep_def_cmd t) (capture (proc (grep_def_cmd t))) (dur 1)
  let r3 := add_step r2 ("cat") (cat_cmd t) (capture (proc (cat_cmd t))) (dur 2)
  let r4 := add_step r3 ("grep") grep_callers_cmd (capture (proc grep_callers_cmd)) (dur 3)
  add_step r4 ("cat") (cat_cmd caller_file) (capture (proc (cat_cmd caller_file))) (dur 4)

/-- `"git-ai ai query 'SysUserServiceImpl selectUserList'"` (experimental step 1). -/
def gitai_query_cmd : String :=
  ("git-ai ai query ") ++ sq ++ ("SysUserServiceImpl selectUserList") ++ sq

/-- `"git-ai ai graph callers selectUserList"` (experimental step 2). -/
def gitai_callers_cmd : String := ("git-ai ai graph callers selectUserList")

/-- `"git-ai ai graph chain selectUserList"` (experimental step 3). -/
def gitai_chain_cmd : String := ("git-ai ai graph chain selectUserList")

/-- `"git-ai ai semantic 'How does selectUserList work in SysUserServiceImpl?' --topk 2"`
(experimental step 4). -/
def gitai_semantic_cmd : String :=
  ("git-ai ai semantic ") ++ sq ++ ("How does selectUserList work in SysUserServiceImpl?")
    ++ sq ++ (" --topk 2")

/-- `run_git_ai(runner)`: the four-step experimental workflow. -/
def run_git_ai (proc : String → ProcResult) (dur : Nat → ℚ) : Option BenchmarkResult :=
  (runCmd proc (dur 0) gitai_query_cmd (BenchmarkResult.init ("Experimental (git-ai)"))).bind
    fun p1 =>
      (runCmd proc (dur 1) gitai_callers_cmd p1.2).bind fun p2 =>
        (runCmd proc (dur 2) gitai_chain_cmd p2.2).bind fun p3 =>
          (runCmd proc (dur 3) gitai_semantic_cmd p3.2).map fun p4 => p4.2

/-- The tracker produced by a complete `run_git_ai` run, written out step by
step (proved equal to `run_git_ai`'s result below). -/
def git_ai_result (proc : String → ProcResult) (dur : Nat → ℚ) : BenchmarkResult :=
  let r1 := add_step (BenchmarkResult.init ("Experimental (git-ai)")) ("git-ai")
    gitai_query_cmd (capture (proc gitai_query_cmd)) (dur 0)
  let r2 := add_step r1 ("git-ai") gitai_callers_cmd (capture (proc gitai_callers_cmd)) (dur 1)
  let r3 := add_step r2 ("git-ai") gitai_chain_cmd (capture (proc gitai_chain_cmd)) (dur 2)
  add_step r3 ("git-ai") gitai_semantic_cmd (capture (proc gitai_semantic_cmd)) (dur 3)

/-- The numeric content of the report table printed by `print_report`. -/
structure Report where
  base_tok : Nat
  exp_tok : Nat
  diff_tok : ℚ
  base_steps : Nat
  exp_steps : Nat
  diff_steps : ℚ
  base_density : ℚ
  exp_density : ℚ
  diff_density : ℚ
  time_diff : ℚ
  deriving DecidableEq, Repr

/-- `print_report(baseline, experimental)`: the metric computations.
Each percentage change and each density is guarded by a
`... if denominator > 0 else 0` conditional, exactly as in the source. -/
def print_report (baseline experimental : BenchmarkResult) : Report :=
  let base_tok := baseline.total_tokens
  let exp_tok := experimental.total_tokens
  let diff_tok : ℚ :=
    if 0 < base_tok then ((exp_tok : ℚ) - (base_tok : ℚ)) / (base_tok : ℚ) * 100 else 0
  let base_steps := baseline.steps.length
  let exp_steps := experimental.steps.length
  let diff_steps : ℚ :=
    if 0 < base_steps then ((exp_steps : ℚ) - (base_steps : ℚ)) / (base_steps : ℚ) * 100 else 0
  let base_density : ℚ := if 0 < base_steps then (base_tok : ℚ) / (base_steps : ℚ) else 0
  let exp_density : ℚ := if 0 < exp_steps then (exp_tok : ℚ) / (exp_steps : ℚ) else 0
  let diff_density : ℚ :=
    if 0 < base_density then (exp_density - base_density) / base_density * 100 else 0
  { base_tok := base_tok, exp_tok := exp_tok, diff_tok := diff_tok,
    base_steps := base_steps, exp_steps := exp_steps, diff_steps := diff_steps,
    base_density := base_density, exp_density := exp_density, diff_density := diff_density,
    time_diff := experimental.total_time - baseline.total_time }

/-- Rendering of a value by Python `f"{x:.1f}"`, as an exact rational with
one decimal place (round-to-nearest; no tie arises in any claim). -/
def fmt1 (q : ℚ) : ℚ := (round (q * 10) : ℤ) / 10

/-- Default target directory of the `__main__` block. -/
def default_dir : String := ("/Users/mars/dev/ruoyi")

/-- The fatal error message printed when the target directory is missing. -/
def missing_dir_msg (target_dir : String) : String :=
  ("Error: Target directory ") ++ target_dir ++ (" does not exist.")

/-- The `__main__` block: pick the target directory from `sys.argv[1]` (or
the hardcoded default), exit with status 1 and an error message if it does
not exist (per the `fs_exists` oracle), otherwise run both workflows and
report. `args` is `sys.argv[1:]`; `durB`/`durE` are the duration oracles of
the two drivers. The success payload keeps both trackers. -/
def main_block (fs_exists : String → Bool) (proc : String → ProcResult)
    (durB durE : Nat → ℚ) (args : List String) :
    Except (Nat × String) (Option (BenchmarkResult × BenchmarkResult)) :=
  let target_dir := args.headD default_dir
  if fs_exists target_dir then
    .ok ((run_baseline proc durB).bind fun b =>
          (run_git_ai proc durE).map fun e => (b, e))
  else
    .error (1, missing_dir_msg target_dir)

/-- The baseline tracker of the worked report example: steps with token
counts `[100, 200, 50]` (consistent running totals). -/
def example_base : BenchmarkResult :=
  { name := ("Baseline (grep/cat)")
    steps := [{ tool := ("t"), command := ("c"), tokens := 100, duration := 0, output_len := 0 },
              { tool := ("t"), command := ("c"), tokens := 200, duration := 0, output_len := 0 },
              { tool := ("t"), command := ("c"), tokens := 50, duration := 0, output_len := 0 }]
    total_tokens := 350
    total_time := 0 }

/-- The experimental tracker of the worked report example: steps with token
counts `[30, 40]`. -/
def example_exp : BenchmarkResult :=
  { name := ("Experimental (git-ai)")
    steps := [{ tool := ("t"), command := ("c"), tokens := 30, duration := 0, output_len := 0 },
              { tool := ("t"), command := ("c"), tokens := 40, duration := 0, output_len := 0 }]
    total_tokens := 70
    total_time := 0 }

/-! ## Helper lemmas -/

lemma count_tokens_eq (text : String) :
    count_tokens text = (pyWords text).length * 13 / 10 := by
  by_cases h : text = ""
  · subst h; rfl
  · simp [count_tokens, h]

lemma add_step_steps (r : BenchmarkResult) (tool cmd out : String) (d : ℚ) :
    (add_step r tool cmd out d).steps
      = r.steps ++ [{ tool := tool, command := cmd, tokens := count_tokens out,
                      duration := d, output_len := out.length }] := rfl

lemma runSteps_totals (calls : List (String × String × String × ℚ)) :
    ∀ r : BenchmarkResult,
      r.total_tokens = (r.steps.map Step.tokens).sum →
      r.total_time = (r.steps.map Step.duration).sum →
      (runSteps r calls).total_tokens = ((runSteps r calls).steps.map Step.tokens).sum ∧
      (runSteps r calls).total_time = ((runSteps r calls).steps.map Step.duration).sum := by
  induction calls with
  | nil => exact fun r h1 h2 => ⟨h1, h2⟩
  | cons c rest ih =>
    rintro r h1 h2
    obtain ⟨tool, cmd, out, d⟩ := c
    refine ih (add_step r tool cmd out d) ?_ ?_
    · simp [add_step, h1]
    · simp [add_step, h2]

lemma words_head_grep (rest : List Char) :
    (pyWordsAux ('g' :: 'r' :: 'e' :: 'p' :: ' ' :: rest) []).head? = some ("grep") := by
  simp [pyWordsAux, pyIsSpace]

lemma words_head_cat (rest : List Char) :
    (pyWordsAux ('c' :: 'a' :: 't' :: ' ' :: rest) []).head? = some ("cat") := by
  simp [pyWordsAux, pyIsSpace]

lemma head_find_cmd : (pyWords find_cmd).head? = some ("find") := by decide

lemma head_grep_def_cmd (f : String) :
    (pyWords (grep_def_cmd f)).head? = some ("grep") := by
  have hd : (grep_def_cmd f).data
      = 'g' :: 'r' :: 'e' :: 'p' :: ' ' ::
        (((("-n ") ++ sq ++ ("List<SysUser> selectUserList") ++ sq ++ (" ")).data) ++ f.data) := by
    simp [grep_def_cmd, String.data_append, sq]
  rw [pyWords, hd]
  exact words_head_grep _

lemma head_cat_cmd (f : String) : (pyWords (cat_cmd f)).head? = some ("cat") := by
  have hd : (cat_cmd f).data = 'c' :: 'a' :: 't' :: ' ' :: f.data := by
    rw [cat_cmd, String.data_append]
    rfl
  rw [pyWords, hd]
  exact words_head_cat f.data

lemma head_grep_callers_cmd : (pyWords grep_callers_cmd).head? = some ("grep") := by decide

lemma head_gitai_query : (pyWords gitai_query_cmd).head? = some ("git-ai") := by decide

lemma head_gitai_callers : (pyWords gitai_callers_cmd).head? = some ("git-ai") := by decide

lemma head_gitai_chain : (pyWords gitai_chain_cmd).head? = some ("git-ai") := by decide

lemma head_gitai_semantic : (pyWords gitai_semantic_cmd).head? = some ("git-ai") := by decide

lemma runCmd_eq (proc : String → ProcResult) (d : ℚ) (cmd : String)
    (r : BenchmarkResult) (tool : String) (h : (pyWords cmd).head? = some tool) :
    runCmd proc d cmd r
      = some (capture (proc cmd), add_step r tool cmd (capture (proc cmd)) d) := by
  simp [runCmd, h]

lemma runCmd_find (proc : String → ProcResult) (d : ℚ) (r : BenchmarkResult) :
    runCmd proc d find_cmd r
      = some (capture (proc find_cmd),
              add_step r ("find") find_cmd (capture (proc find_cmd)) d) :=
  runCmd_eq proc d find_cmd r _ head_find_cmd

lemma runCmd_grep_def (proc : String → ProcResult) (d : ℚ) (f : String) (r : BenchmarkResult) :
    runCmd proc d (grep_def_cmd f) r
      = some (capture (proc (grep_def_cmd f)),
              add_step r ("grep") (grep_def_cmd f) (capture (proc (grep_def_cmd f))) d) :=
  runCmd_eq proc d (grep_def_cmd f) r _ (head_grep_def_cmd f)

lemma runCmd_cat (proc : String → ProcResult) (d : ℚ) (f : String) (r : BenchmarkResult) :
    runCmd proc d (cat_cmd f) r
      = some (capture (proc (cat_cmd f)),
              add_step r ("cat") (cat_cmd f) (capture (proc (cat_cmd f))) d) :=
  runCmd_eq proc d (cat_cmd f) r _ (head_cat_cmd f)

lemma runCmd_grep_callers (proc : String → ProcResult) (d : ℚ) (r : BenchmarkResult) :
    runCmd proc d grep_callers_cmd r
      = some (capture (proc grep_callers_cmd),
              add_step r ("grep") grep_callers_cmd (capture (proc grep_callers_cmd)) d) :=
  runCmd_eq proc d grep_callers_cmd r _ head_grep_callers_cmd

lemma runCmd_gitai_query (proc : String → ProcResult) (d : ℚ) (r : BenchmarkResult) :
    runCmd proc d gitai_query_cmd r
      = some (capture (proc gitai_query_cmd),
              add_step r ("git-ai") gitai_query_cmd (capture (proc gitai_query_cmd)) d) :=
  runCmd_eq proc d gitai_query_cmd r _ head_gitai_query

lemma runCmd_gitai_callers (proc : String → ProcResult) (d : ℚ) (r : BenchmarkResult) :
    runCmd proc d gitai_callers_cmd r
      = some (capture (proc gitai_callers_cmd),
              add_step r ("git-ai") gitai_callers_cmd (capture (proc gitai_callers_cmd)) d) :=
  runCmd_eq proc d gitai_callers_cmd r _ head_gitai_callers

lemma runCmd_gitai_chain (proc : String → ProcResult) (d : ℚ) (r : BenchmarkResult) :
    runCmd proc d gitai_chain_cmd r
      = some (capture (proc gitai_chain_cmd),
              add_step r ("git-ai") gitai_chain_cmd (capture (proc gitai_chain_cmd)) d) :=
  runCmd_eq proc d gitai_chain_cmd r _ head_gitai_chain

lemma runCmd_gitai_semantic (proc : String → ProcResult) (d : ℚ) (r : BenchmarkResult) :
    runCmd proc d gitai_semantic_cmd r
      = some (capture (proc gitai_semantic_cmd),
              add_step r ("git-ai") gitai_semantic_cmd (capture (proc gitai_semantic_cmd)) d) :=
  runCmd_eq proc d gitai_semantic_cmd r _ head_gitai_semantic

lemma run_baseline_eq (proc : String → ProcResult) (dur : Nat → ℚ) :
    run_baseline proc dur = some (baseline_result proc dur) := by
  simp only [run_baseline, runCmd_find, runCmd_grep_def, runCmd_cat, runCmd_grep_callers]
  rfl

lemma run_git_ai_eq (proc : String → ProcResult) (dur : Nat → ℚ) :
    run_git_ai proc dur = some (git_ai_result proc dur) := by
  simp only [run_git_ai, runCmd_gitai_query, runCmd_gitai_callers, runCmd_gitai_chain,
    runCmd_gitai_semantic]
  rfl

lemma baseline_result_tools (proc : String → ProcResult) (dur : Nat → ℚ) :
    (baseline_result proc dur).steps.map Step.tool
      = [("find"), ("grep"), ("cat"), ("grep"), ("cat")] := by
  simp [baseline_result, add_step, BenchmarkResult.init]

lemma baseline_result_commands (proc : String → ProcResult) (dur : Nat → ℚ) :
    (baseline_result proc dur).steps.map Step.command
      = [find_cmd,
         grep_def_cmd (baseline_target (capture (proc find_cmd))),
         cat_cmd (baseline_target (capture (proc find_cmd))),
         grep_callers_cmd,
         cat_cmd caller_file] := by
  simp [baseline_result, add_step, BenchmarkResult.init]

lemma git_ai_result_tools (proc : String → ProcResult) (dur : Nat → ℚ) :
    (git_ai_result proc dur).steps.map Step.tool
      = [("git-ai"), ("git-ai"), ("git-ai"), ("git-ai")] := by
  simp [git_ai_result, add_step, BenchmarkResult.init]

lemma git_ai_result_commands (proc : String → ProcResult) (dur : Nat → ℚ) :
    (git_ai_result proc dur).steps.map Step.command
      = [gitai_query_cmd, gitai_callers_cmd, gitai_chain_cmd, gitai_semantic_cmd] := by
  simp [git_ai_result, add_step, BenchmarkResult.init]

lemma baseline_target_default (out1 : String)
    (h : (pySplitLines out1).filter (fun line => pyEndsWith (pyStrip line) java_file) = []) :
    baseline_target out1 = default_target := by
  rw [baseline_target, h]

/-! ## Claim theorems -/

/-- C1: for every tracker built by a finite sequence of `add_step` calls on a
fresh `BenchmarkResult`, `total_tokens` is the sum of the recorded steps'
token counts and `total_time` is the sum of their durations; moreover every
`add_step` call only appends one step at the end, leaving all previously
recorded steps unchanged and in order. -/
theorem tracker_totals_invariant (name : String)
    (calls : List (String × String × String × ℚ)) :
    ((runSteps (BenchmarkResult.init name) calls).total_tokens
        = ((runSteps (BenchmarkResult.init name) calls).steps.map Step.tokens).sum ∧
      (runSteps (BenchmarkResult.init name) calls).total_time
        = ((runSteps (BenchmarkResult.init name) calls).steps.map Step.duration).sum) ∧
    ∀ (r : BenchmarkResult) (tool cmd out : String) (d : ℚ),
      (add_step r tool cmd out d).steps
        = r.steps ++ [{ tool := tool, command := cmd, tokens := count_tokens out,
                        duration := d, output_len := out.length }] := by
  constructor
  · exact runSteps_totals calls (BenchmarkResult.init name) rfl rfl
  · exact fun r tool cmd out d => add_step_steps r tool cmd out d

/-- C2 counterexample: on a three-word text the fallback counter returns
`int(3 * 1.3) = 3`, not `round(3 * 1.3) = 4`, so the claimed
`round(word_count * 1.3)` law fails. -/
theorem count_tokens_not_round :
    ¬ ((count_tokens ("a b c") : ℤ)
        = round ((1.3 : ℚ) * ((pyWords ("a b c")).length : ℚ))) := by
  have h1 : count_tokens ("a b c") = 3 := by decide
  have h2 : (pyWords ("a b c")).length = 3 := by decide
  rw [h1, h2]
  norm_num [round_eq]

/-- C2 (amended): the fallback counter returns the product `word_count * 1.3`
truncated toward zero (integer division), and `0` on the empty text. -/
theorem count_tokens_truncates (text : String) :
    (count_tokens text : ℤ) = (13 * ((pyWords text).length : ℤ)) / 10 ∧
      count_tokens ("") = 0 := by
  refine ⟨?_, rfl⟩
  rw [count_tokens_eq, Nat.mul_comm, Int.ofNat_div]
  push_cast
  rfl

/-- C3: the fallback counter splits the text on whitespace, counts the
words, multiplies by the constant `1.3` and truncates (floors) the product;
the empty text yields `0`. -/
theorem count_tokens_floor_spec (text : String) :
    count_tokens text = Nat.floor ((1.3 : ℚ) * ((pyWords text).length : ℚ)) ∧
      count_tokens ("") = 0 := by
  refine ⟨?_, rfl⟩
  rw [count_tokens_eq]
  have h : (1.3 : ℚ) * ((pyWords text).length : ℚ)
      = ((13 * (pyWords text).length : ℕ) : ℚ) / ((10 : ℕ) : ℚ) := by
    push_cast; ring
  rw [h, Nat.floor_div_eq_div, Nat.mul_comm]

/-- C4: each of the three percentage-change computations of the report
yields `0` instead of dividing when its baseline denominator is `0`, and the
two density computations yield `0` when their step-count denominator is `0`;
hence no division by zero is reachable in `print_report`. -/
theorem print_report_zero_guards (b e : BenchmarkResult) :
    (b.total_tokens = 0 → (print_report b e).diff_tok = 0) ∧
    (b.steps.length = 0 → (print_report b e).diff_steps = 0) ∧
    ((print_report b e).base_density = 0 → (print_report b e).diff_density = 0) ∧
    (b.steps.length = 0 → (print_report b e).base_density = 0) ∧
    (e.steps.length = 0 → (print_report b e).exp_density = 0) := by
  refine ⟨?_, ?_, ?_, ?_, ?_⟩
  · intro h; simp [print_report, h]
  · intro h; simp [print_report, h]
  · intro h
    simp only [print_report] at h ⊢
    rw [h]
    simp
  · intro h; simp [print_report, h]
  · intro h; simp [print_report, h]

/-- C4 witness: on two freshly initialised trackers every denominator is `0`
and all guarded metrics evaluate to `0`. -/
theorem print_report_zero_guards_witness :
    (print_report (BenchmarkResult.init ("a")) (BenchmarkResult.init ("b"))).diff_tok = 0 ∧
    (print_report (BenchmarkResult.init ("a")) (BenchmarkResult.init ("b"))).diff_steps = 0 ∧
    (print_report (BenchmarkResult.init ("a")) (BenchmarkResult.init ("b"))).diff_density = 0 ∧
    (print_report (BenchmarkResult.init ("a")) (BenchmarkResult.init ("b"))).base_density = 0 ∧
    (print_report (BenchmarkResult.init ("a")) (BenchmarkResult.init ("b"))).exp_density = 0 := by
  have h := print_report_zero_guards (BenchmarkResult.init ("a")) (BenchmarkResult.init ("b"))
  refine ⟨h.1 rfl, h.2.1 rfl, h.2.2.1 ?_, h.2.2.2.1 rfl, h.2.2.2.2 rfl⟩
  exact h.2.2.2.1 rfl

/-- C5: on the worked example (baseline step tokens `[100, 200, 50]`,
experimental step tokens `[30, 40]`) the report computes totals 350 vs 70
with a −80.0% change, step counts 3 vs 2 with a change displayed as −33.3%,
and average tokens per step displayed as 116.7 vs 35.0 with a −70.0% change
(`fmt1` is the `%.1f` rendering used by the table). -/
theorem print_report_example :
    (print_report example_base example_exp).base_tok = 350 ∧
    (print_report example_base example_exp).exp_tok = 70 ∧
    (print_report example_base example_exp).diff_tok = -80 ∧
    (print_report example_base example_exp).base_steps = 3 ∧
    (print_report example_base example_exp).exp_steps = 2 ∧
    fmt1 (print_report example_base example_exp).diff_steps = -333 / 10 ∧
    fmt1 (print_report example_base example_exp).base_density = 1167 / 10 ∧
    (print_report example_base example_exp).exp_density = 35 ∧
    (print_report example_base example_exp).diff_density = -70 := by
  refine ⟨rfl, rfl, ?_, rfl, rfl, ?_, ?_, ?_, ?_⟩ <;>
    norm_num [print_report, example_base, example_exp, fmt1, round_eq]

/-- C6: the baseline driver issues exactly its five commands in the fixed
order (find by name, grep the signature with line numbers, cat the target
file, recursive grep piped through head, cat the hardcoded caller file) and
the experimental driver issues exactly its four git-ai commands in the fixed
order (symbol query, graph callers, graph chain, semantic query with
`--topk 2`); each driver records exactly that many steps, in execution
order, on its own tracker. -/
theorem drivers_fixed_sequences (proc : String → ProcResult) (durB durE : Nat → ℚ) :
    (run_baseline proc durB = some (baseline_result proc durB) ∧
      (baseline_result proc durB).steps.map Step.command
        = [find_cmd,
           grep_def_cmd (baseline_target (capture (proc find_cmd))),
           cat_cmd (baseline_target (capture (proc find_cmd))),
           grep_callers_cmd,
           cat_cmd caller_file] ∧
      (baseline_result proc durB).steps.map Step.tool
        = [("find"), ("grep"), ("cat"), ("grep"), ("cat")]) ∧
    (run_git_ai proc durE = some (git_ai_result proc durE) ∧
      (git_ai_result proc durE).steps.map Step.command
        = [gitai_query_cmd, gitai_callers_cmd, gitai_chain_cmd, gitai_semantic_cmd] ∧
      (git_ai_result proc durE).steps.map Step.tool
        = [("git-ai"), ("git-ai"), ("git-ai"), ("git-ai")]) :=
  ⟨⟨run_baseline_eq proc durB, baseline_result_commands proc durB,
    baseline_result_tools proc durB⟩,
   ⟨run_git_ai_eq proc durE, git_ai_result_commands proc durE,
    git_ai_result_tools proc durE⟩⟩

/-- C7: when no line of the `find` output ends (after stripping) with
`SysUserServiceImpl.java`, the baseline driver still completes without
error, and both later steps that reference the target file (the grep step
and the cat step) use the hardcoded default path. -/
theorem baseline_fallback_default (proc : String → ProcResult) (dur : Nat → ℚ)
    (h : (pySplitLines (capture (proc find_cmd))).filter
        (fun line => pyEndsWith (pyStrip line) java_file) = []) :
    run_baseline proc dur = some (baseline_result proc dur) ∧
    (baseline_result proc dur).steps.map Step.command
      = [find_cmd, grep_def_cmd default_target, cat_cmd default_target,
         grep_callers_cmd, cat_cmd caller_file] := by
  refine ⟨run_baseline_eq proc dur, ?_⟩
  rw [baseline_result_commands, baseline_target_default _ h]

/-- C7 witness: an environment where every command produces empty output has
no matching `find` line, so the driver uses the default path. -/
theorem baseline_fallback_default_witness :
    ((pySplitLines (capture ((fun _ : String => ProcResult.ok ("") ("")) find_cmd))).filter
        (fun line => pyEndsWith (pyStrip line) java_file) = []) ∧
    (run_baseline (fun _ : String => ProcResult.ok ("") ("")) (fun _ => 0)
        = some (baseline_result (fun _ : String => ProcResult.ok ("") ("")) (fun _ => 0)) ∧
      (baseline_result (fun _ : String => ProcResult.ok ("") ("")) (fun _ => 0)).steps.map
          Step.command
        = [find_cmd, grep_def_cmd default_target, cat_cmd default_target,
           grep_callers_cmd, cat_cmd caller_file]) :=
  ⟨by decide, baseline_fallback_default (fun _ => ProcResult.ok ("") ("")) (fun _ => 0)
    (by decide)⟩

/-- C8 counterexample: for the empty command string whose process invocation
raises an exception, `run_cmd` does not return normally and records no step:
the subsequent `cmd_str.split()[0]` raises an uncaught `IndexError`
(modelled as `none`), so the claim's universal quantification over every
command fails. -/
theorem runCmd_empty_cmd_propagates :
    runCmd (fun _ => ProcResult.err ("boom")) 0 ("") (BenchmarkResult.init ("x")) = none := rfl

/-- C8 (amended): for every command string with at least one
whitespace-delimited word whose process invocation raises an exception,
`run_cmd` swallows the exception: the captured text is the stringified
failure, a step is recorded with that text's token count and length, and
the text is returned as normal output. -/
theorem runCmd_spawn_failure_recorded (proc : String → ProcResult) (d : ℚ)
    (cmd : String) (r : BenchmarkResult) (msg tool : String)
    (h1 : proc cmd = ProcResult.err msg) (h2 : (pyWords cmd).head? = some tool) :
    runCmd proc d cmd r = some (msg, add_step r tool cmd msg d) ∧
    (add_step r tool cmd msg d).steps
      = r.steps ++ [{ tool := tool, command := cmd, tokens := count_tokens msg,
                      duration := d, output_len := msg.length }] := by
  constructor
  · rw [runCmd_eq proc d cmd r tool h2, h1]
    rfl
  · exact add_step_steps r tool cmd msg d

/-- C8 witness: a one-word command whose spawn fails still yields a recorded
step carrying the failure description. -/
theorem runCmd_spawn_failure_recorded_witness :
    ((fun _ : String => ProcResult.err ("spawn failed")) ("false")
        = ProcResult.err ("spawn failed")) ∧
    ((pyWords ("false")).head? = some ("false")) ∧
    (runCmd (fun _ : String => ProcResult.err ("spawn failed")) 0 ("false")
          (BenchmarkResult.init ("x"))
        = some (("spawn failed"),
            add_step (BenchmarkResult.init ("x")) ("false") ("false") ("spawn failed") 0) ∧
      (add_step (BenchmarkResult.init ("x")) ("false") ("false") ("spawn failed") 0).steps
        = (BenchmarkResult.init ("x")).steps
            ++ [{ tool := ("false"), command := ("false"),
                  tokens := count_tokens ("spawn failed"), duration := 0,
                  output_len := ("spawn failed").length }]) :=
  ⟨rfl, by decide,
   runCmd_spawn_failure_recorded (fun _ => ProcResult.err ("spawn failed")) 0 ("false")
     (BenchmarkResult.init ("x")) ("spawn failed") ("false") rfl (by decide)⟩

/-- C9: if the resolved target directory does not exist, the main block
stops with exit status 1 and the error message, running no workflow; if it
exists, no such exit occurs and both workflows run to completion. -/
theorem main_dir_check (fs_exists : String → Bool) (proc : String → ProcResult)
    (durB durE : Nat → ℚ) (args : List String) :
    (fs_exists (args.headD default_dir) = false →
      main_block fs_exists proc durB durE args
        = Except.error (1, missing_dir_msg (args.headD default_dir))) ∧
    (fs_exists (args.headD default_dir) = true →
      main_block fs_exists proc durB durE args
        = Except.ok (some (baseline_result proc durB, git_ai_result proc durE))) := by
  constructor
  · intro h
    simp only [List.headD_eq_head?] at h
    simp [main_block, h]
  · intro h
    simp only [List.headD_eq_head?] at h
    simp [main_block, h, run_baseline_eq, run_git_ai_eq]

/-- C9 witness: with an always-false filesystem oracle the main block exits
with status 1 and the message; with an always-true oracle it returns both
completed trackers. -/
theorem main_dir_check_witness :
    (main_block (fun _ => false) (fun _ : String => ProcResult.ok ("") (""))
        (fun _ => 0) (fun _ => 0) []
      = Except.error (1, missing_dir_msg default_dir)) ∧
    (main_block (fun _ => true) (fun _ : String => ProcResult.ok ("") (""))
        (fun _ => 0) (fun _ => 0) []
      = Except.ok (some
          (baseline_result (fun _ : String => ProcResult.ok ("") ("")) (fun _ => 0),
           git_ai_result (fun _ : String => ProcResult.ok ("") ("")) (fun _ => 0)))) :=
  ⟨(main_dir_check (fun _ => false) (fun _ => ProcResult.ok ("") (""))
      (fun _ => 0) (fun _ => 0) []).1 rfl,
   (main_dir_check (fun _ => true) (fun _ => ProcResult.ok ("") (""))
      (fun _ => 0) (fun _ => 0) []).2 rfl⟩

/-- C10 counterexample: for an all-whitespace command string the derivation
`cmd_str.split()[0]` is not well-defined — it raises `IndexError` (modelled
as `none`) even though the process itself ran fine — refuting the claim that
the derivation does not fail for every command string. -/
theorem tool_name_whitespace_cmd_fails :
    runCmd (fun _ => ProcResult.ok ("out") ("")) 0 (" ") (BenchmarkResult.init ("y"))
      = none := rfl

/-- C10 (amended): whenever the command string has a first
whitespace-delimited token, `run_cmd` records exactly that token as the
step's tool name; for an empty or all-whitespace command the indexing
raises an uncaught `IndexError` instead. -/
theorem tool_name_first_token (proc : String → ProcResult) (d : ℚ) (cmd : String)
    (r : BenchmarkResult) (tool : String) (h : (pyWords cmd).head? = some tool) :
    runCmd proc d cmd r
      = some (capture (proc cmd), add_step r tool cmd (capture (proc cmd)) d) ∧
    (add_step r tool cmd (capture (proc cmd)) d).steps.map Step.tool
      = r.steps.map Step.tool ++ [tool] := by
  refine ⟨runCmd_eq proc d cmd r tool h, ?_⟩
  simp [add_step]

/-- C10 witness: for the command `ls -la` the recorded tool name is `ls`. -/
theorem tool_name_first_token_witness :
    ((pyWords ("ls -la")).head? = some ("ls")) ∧
    (runCmd (fun _ : String => ProcResult.ok ("files") ("")) 0 ("ls -la")
          (BenchmarkResult.init ("z"))
        = some (capture (ProcResult.ok ("files") ("")),
            add_step (BenchmarkResult.init ("z")) ("ls") ("ls -la")
              (capture (ProcResult.ok ("files") (""))) 0) ∧
      (add_step (BenchmarkResult.init ("z")) ("ls") ("ls -la")
          (capture (ProcResult.ok ("files") (""))) 0).steps.map Step.tool
        = (BenchmarkResult.init ("z")).steps.map Step.tool ++ [("ls")]) :=
  ⟨by decide,
   tool_name_first_token (fun _ => ProcResult.ok ("files") ("")) 0 ("ls -la")
     (BenchmarkResult.init ("z")) ("ls") (by decide)⟩

end Benchmark
